import Mathlib

/-!
Shallow embedding of the ruvnet/aws-dev repository:
  * `src/scripts/hr.py` — the in-memory HR CRUD service,
  * `src/deployment/aws/deploy.py` — the AWS deployment FastAPI service,
  * `src/deployment/deploy_script.py` — the provider-generic duplicate script.

Python dictionaries are modelled as association lists, FastAPI's
`HTTPException` as an explicit error result, and the external world
(subprocess commands, boto3 SDK calls, environment variables) as an
explicit environment record consumed by the endpoint functions, which
additionally emit a trace of the external calls they perform.
-/

namespace Hr

/-- An employee record, mirroring the pydantic `Employee` model of
`src/scripts/hr.py` (fields name, position, salary, performance). -/
structure Employee where
  name : String
  position : String
  salary : Int
  performance : String
deriving Repr, DecidableEq

/-- The module-level `employees` dict is modelled as an association list
from employee-id strings to records, in insertion order. -/
abbrev EmployeeMap := List (String × Employee)

/-- `emp_id in employees` membership test of a Python dict. -/
def mapContains : EmployeeMap → String → Bool
  | [], _ => false
  | (k', _) :: rest, k => (k' == k) || mapContains rest k

/-- `employees[emp_id]` lookup (first binding wins, as keys are unique). -/
def mapGet? : EmployeeMap → String → Option Employee
  | [], _ => none
  | (k', v') :: rest, k => if k' == k then some v' else mapGet? rest k

/-- `employees[emp_id] = v`: update in place when the key is present,
append otherwise (Python dict assignment keeps insertion order). -/
def mapSet (m : EmployeeMap) (k : String) (v : Employee) : EmployeeMap :=
  match m with
  | [] => [(k, v)]
  | (k', v') :: rest =>
    if k' == k then (k, v) :: rest else (k', v') :: mapSet rest k v

/-- The seeded `employees` dict of `src/scripts/hr.py` lines 9-12. -/
def initialEmployees : EmployeeMap :=
  [("101", { name := "Alice Johnson", position := "Manager", salary := 60000,
             performance := "Excellent" }),
   ("102", { name := "Bob Smith", position := "Developer", salary := 50000,
             performance := "Good" })]

/-- Result of an HR endpoint: a JSON body or a raised `HTTPException`. -/
inductive HrResult (α : Type) where
  | ok (a : α)
  | httpError (status : Int) (detail : String)
deriving Repr, DecidableEq

/-- `POST /add_employee/` (hr.py lines 27-32). -/
def add_employee (emp_id : String) (employee : Employee) (employees : EmployeeMap) :
    HrResult String × EmployeeMap :=
  if mapContains employees emp_id then
    (HrResult.httpError 400 "Employee ID already exists", employees)
  else
    (HrResult.ok ("Employee " ++ employee.name ++ " added successfully!"),
     mapSet employees emp_id employee)

/-- `GET /view_employee/{emp_id}` (hr.py lines 34-38). -/
def view_employee (emp_id : String) (employees : EmployeeMap) :
    HrResult Employee × EmployeeMap :=
  match mapGet? employees emp_id with
  | some e => (HrResult.ok e, employees)
  | none => (HrResult.httpError 404 "Employee not found", employees)

/-- `PUT /update_performance/{emp_id}` (hr.py lines 40-45). -/
def update_performance (emp_id : String) (performance : String)
    (employees : EmployeeMap) : HrResult String × EmployeeMap :=
  if mapContains employees emp_id then
    (HrResult.ok ("Performance for Employee ID " ++ emp_id ++ " updated to "
        ++ performance),
     mapSet employees emp_id
       (match mapGet? employees emp_id with
        | some e => { e with performance := performance }
        | none => { name := "", position := "", salary := 0, performance := performance }))
  else
    (HrResult.httpError 404 "Employee not found", employees)

/-- `GET /calculate_payroll/` (hr.py lines 47-55): folds over the dict in
insertion order building the payroll report string. -/
def calculate_payroll (employees : EmployeeMap) : HrResult String × EmployeeMap :=
  let body := employees.foldl
    (fun acc p =>
      acc ++ "ID: " ++ p.1 ++ ", Name: " ++ p.2.name ++ ", Salary: "
        ++ toString p.2.salary ++ "\n") ""
  let total := employees.foldl (fun acc p => acc + p.2.salary) 0
  (HrResult.ok (body ++ "\nTotal Payroll: " ++ toString total), employees)

/-- One HR endpoint invocation, for reasoning about call sequences. -/
inductive HrOp where
  | add (emp_id : String) (e : Employee)
  | view (emp_id : String)
  | updatePerf (emp_id : String) (performance : String)
  | payroll
deriving Repr, DecidableEq

/-- State effect of one endpoint invocation on the `employees` dict. -/
def applyOp (op : HrOp) (m : EmployeeMap) : EmployeeMap :=
  match op with
  | HrOp.add emp_id e => (add_employee emp_id e m).2
  | HrOp.view emp_id => (view_employee emp_id m).2
  | HrOp.updatePerf emp_id p => (update_performance emp_id p m).2
  | HrOp.payroll => (calculate_payroll m).2

/-- State after a sequence of endpoint invocations. -/
def runOps (ops : List HrOp) (m : EmployeeMap) : EmployeeMap :=
  ops.foldl (fun s op => applyOp op s) m

/-- Process restart: the module is re-executed, so the `employees` dict
literal of lines 9-12 is re-evaluated; no state survives (nothing is
written to disk or any external store anywhere in hr.py). -/
def processRestart (_ : EmployeeMap) : EmployeeMap := initialEmployees

end Hr

namespace Deploy

/-- Outcome of one boto3 SDK call, as supplied by the environment: success
with a response value, or a botocore `ClientError` carrying the service
error code (boto3 raises `client.exceptions.<Code>` subclasses of
`ClientError`) and its rendered message. -/
inductive AwsOutcome (α : Type) where
  | ok (a : α)
  | clientError (code : String) (msg : String)
deriving Repr, DecidableEq

/-- Python exception values, as far as the endpoint handlers of
`src/deployment/aws/deploy.py` distinguish them. -/
inductive PyExc where
  | httpException (status : Int) (detail : String)
  | calledProcessError (cmd : String)
  | clientError (code : String) (msg : String)
  | attributeError (msg : String)
deriving Repr, DecidableEq

/-- Python `str(e)`. The exact text of `CalledProcessError`/`ClientError`
renderings is library-produced; the endpoints only pass it through into the
HTTP detail, so it is kept abstract as the string carried by the value. -/
def PyExc.render : PyExc → String
  | PyExc.httpException status detail => toString status ++ ": " ++ detail
  | PyExc.calledProcessError cmd => cmd
  | PyExc.clientError _ msg => msg
  | PyExc.attributeError msg => msg

/-- Whether an exception is a botocore `ClientError` (the only class
caught by `except ClientError` handlers). -/
def PyExc.isClientError : PyExc → Bool
  | PyExc.clientError _ _ => true
  | _ => false

/-- One external call performed by an endpoint, with the arguments the
source passes to it; the trace of a request is the list of these. -/
inductive Call where
  | runDockerInfo
  | runAwsVersion
  | runCurlAwsCli
  | runUnzipAwsCli
  | runSudoInstallAwsCli
  | runRmAwsCli
  | runVenv
  | writeAppPy (content : String)
  | writeRequirementsTxt (content : String)
  | runPipInstall
  | writeDockerfile (content : String)
  | runDockerBuild (image : String)
  | stsGetCallerIdentity
  | runEcrGetLoginPassword (region : String)
  | runDockerLogin (ecrUri : String)
  | ecrCreateRepository (repositoryName : String)
  | runDockerTag (image : String) (target : String)
  | runDockerPush (target : String)
  | iamGetRole (roleName : String)
  | iamCreateRole (roleName : String) (assumeRolePolicyDocument : String)
      (description : String)
  | lambdaCreateFunction (functionName : String) (role : String)
      (imageUri : String) (memorySize : Option Int)
      (ephemeralStorage : Option Int)
      (vpcConfig : Option (List String × List String))
  | lambdaUpdateFunctionCode (functionName : String) (imageUri : String)
  | lambdaUpdateFunctionConfiguration (functionName : String)
      (memorySize : Option Int) (ephemeralStorage : Option Int)
      (vpcConfig : Option (List String × List String))
  | logsCreateLogGroup (logGroupName : String)
  | logsPutRetentionPolicy (logGroupName : String)
      (retentionInDays : Option Int)
deriving Repr, DecidableEq

/-- The external world seen by one request: the outcome of every
subprocess command, environment read and SDK call the endpoints can make.
Per-function-name outcomes are keyed by the `FunctionName`/log-group
argument. -/
structure DeployEnv where
  dockerInfoExit : Int
  awsVersionExit : Int
  curlOk : Bool
  unzipOk : Bool
  installerOk : Bool
  rmOk : Bool
  venvOk : Bool
  pipOk : Bool
  dockerBuildExit : Int
  dockerBuildStderr : String
  envRegion : Option String
  sts : AwsOutcome String
  loginPasswordOk : Bool
  dockerLoginExit : Int
  dockerLoginStderr : String
  createRepository : AwsOutcome Unit
  dockerTagOk : Bool
  dockerPushOk : Bool
  getRole : AwsOutcome Unit
  createRole : AwsOutcome Unit
  createFunction : String → AwsOutcome String
  updateFunctionCode : String → AwsOutcome String
  updateFunctionConfiguration : String → AwsOutcome Unit
  createLogGroup : String → AwsOutcome Unit
  putRetentionPolicy : String → AwsOutcome Unit

/-- A computation inside an endpoint body: its value or the exception it
raised, together with the trace of external calls it performed. -/
structure Step (α : Type) where
  result : Except PyExc α
  trace : List Call

/-- Sequencing: exceptions short-circuit; traces concatenate. -/
def Step.bind {α β : Type} (x : Step α) (f : α → Step β) : Step β :=
  match x with
  | ⟨Except.ok a, t⟩ =>
    let y := f a
    ⟨y.result, t ++ y.trace⟩
  | ⟨Except.error e, t⟩ => ⟨Except.error e, t⟩

def Step.pure {α : Type} (a : α) : Step α := ⟨Except.ok a, []⟩

def Step.raise {α : Type} (e : PyExc) : Step α := ⟨Except.error e, []⟩

/-- `raise HTTPException(status_code=..., detail=...)`. -/
def raiseHttp {α : Type} (status : Int) (detail : String) : Step α :=
  Step.raise (PyExc.httpException status detail)

/-- `try: x except client.exceptions.<code>: handler` — catches exactly a
`ClientError` whose error code is `code`; everything else propagates. -/
def tryCatchCode {α : Type} (code : String) (x : Step α) (handler : Step α) :
    Step α :=
  match x with
  | ⟨Except.error (PyExc.clientError c m), t⟩ =>
    if c = code then
      let y := handler
      ⟨y.result, t ++ y.trace⟩
    else ⟨Except.error (PyExc.clientError c m), t⟩
  | other => other

/-- `subprocess.run(cmd, capture_output=True)` without `check`: records
the call and returns the process exit code, never raising. -/
def runCapture (c : Call) (exit : Int) : Step Int := ⟨Except.ok exit, [c]⟩

/-- `subprocess.run(cmd, check=True)`: raises `CalledProcessError` when
the command fails. -/
def runChecked (c : Call) (ok : Bool) (cmd : String) : Step Unit :=
  ⟨if ok then Except.ok () else Except.error (PyExc.calledProcessError cmd),
   [c]⟩

/-- A local file write (`open(..., "w")`): traced, never failing in this
model. -/
def writeLocal (c : Call) : Step Unit := ⟨Except.ok (), [c]⟩

/-- A boto3 SDK call with its environment-supplied outcome. -/
def awsCall {α : Type} (c : Call) (out : AwsOutcome α) : Step α :=
  ⟨match out with
   | AwsOutcome.ok a => Except.ok a
   | AwsOutcome.clientError code msg =>
     Except.error (PyExc.clientError code msg),
   [c]⟩

@[simp] theorem Step.bind_ok {α β : Type} (a : α) (t : List Call)
    (f : α → Step β) :
    Step.bind ⟨Except.ok a, t⟩ f = ⟨(f a).result, t ++ (f a).trace⟩ := rfl

@[simp] theorem Step.bind_error {α β : Type} (e : PyExc) (t : List Call)
    (f : α → Step β) :
    Step.bind ⟨Except.error e, t⟩ f = ⟨Except.error e, t⟩ := rfl

/-- Python truthiness of an optional string (`None` and `""` are falsy). -/
def truthyStr : Option String → Bool
  | none => false
  | some s => !(s == "")

/-- `x or fallback` on an optional string operand. -/
def strOr (x : Option String) (fallback : String) : String :=
  match x with
  | none => fallback
  | some s => if s == "" then fallback else s

/-- `x if x else d` on an optional int (`None` and `0` are falsy). -/
def intOr (x : Option Int) (d : Int) : Int :=
  match x with
  | none => d
  | some v => if v == 0 then d else v

/-- `x or []` on an optional list. -/
def listOrEmpty (x : Option (List String)) : List String := x.getD []

/-- `os.getenv("AWS_DEFAULT_REGION", "us-west-2")`. -/
def getenvRegion (envRegion : Option String) : String :=
  envRegion.getD "us-west-2"

/-- The pydantic `DeployRequest` of deploy.py lines 16-27 (field defaults
as declared there; `memory_size`/`storage_size` default to 128/512). -/
structure DeployRequest where
  repository_name : String
  image_tag : String
  python_script : String
  requirements : String
  function_name : String
  memory_size : Option Int := some 128
  storage_size : Option Int := some 512
  region : Option String := none
  vpc_id : Option String := none
  subnet_ids : Option (List String) := none
  security_group_ids : Option (List String) := none
deriving Repr, DecidableEq

/-- The pydantic `VpcConfig` of deploy.py lines 40-43. -/
structure VpcConfig where
  vpc_id : String
  subnet_ids : List String
  security_group_ids : List String
deriving Repr, DecidableEq

/-- The pydantic `FunctionConfig` of deploy.py lines 45-54. The source
field holding the function-name stem is spelled `function_name_` followed
by `prefix`; it is abbreviated `function_name_pfx` here. Note the model
declares no `memory_size` or `storage_size` field. -/
structure FunctionConfig where
  repository_name : String
  image_tag : String
  function_name_pfx : String
  number_of_functions : Int
  vpc_id : String
  subnet_ids : List String
  security_group_ids : List String
  region : Option String := none
  log_retention_days : Option Int := some 7
deriving Repr, DecidableEq

/-- The JSON body returned by a successful `/deploy`. -/
structure DeployResponse where
  message : String
  image_uri : String
  lambda_arn : String
deriving Repr, DecidableEq

/-- What FastAPI receives from one endpoint invocation: a response body,
an `HTTPException`, or an exception the endpoint let escape. -/
inductive EndpointResult (α : Type) where
  | ok (a : α)
  | httpError (status : Int) (detail : String)
  | uncaught (e : PyExc)
deriving Repr, DecidableEq

/-- `except subprocess.CalledProcessError as e: raise HTTPException(500,
str(e))` followed by `except Exception as e: raise HTTPException(500,
str(e))` — every exception becomes a 500 with `str(e)` as detail. -/
def catchAll {α : Type} (x : Step α) : EndpointResult α × List Call :=
  match x with
  | ⟨Except.ok a, t⟩ => (EndpointResult.ok a, t)
  | ⟨Except.error e, t⟩ => (EndpointResult.httpError 500 e.render, t)

/-- `except ClientError as e: raise HTTPException(500, str(e))` — only
`ClientError` is mapped; any other exception escapes the endpoint. -/
def catchClientError {α : Type} (x : Step α) :
    EndpointResult α × List Call :=
  match x with
  | ⟨Except.ok a, t⟩ => (EndpointResult.ok a, t)
  | ⟨Except.error (PyExc.clientError code msg), t⟩ =>
    (EndpointResult.httpError 500 (PyExc.clientError code msg).render, t)
  | ⟨Except.error e, t⟩ => (EndpointResult.uncaught e, t)

/-- `install_aws_cli` (deploy.py lines 101-105): four `check=True`
commands. -/
def install_aws_cli (env : DeployEnv) : Step Unit :=
  Step.bind (runChecked Call.runCurlAwsCli env.curlOk
      "curl https://awscli.amazonaws.com/awscli-exe-linux-x86_64.zip -o awscliv2.zip")
    (fun _ =>
  Step.bind (runChecked Call.runUnzipAwsCli env.unzipOk "unzip awscliv2.zip")
    (fun _ =>
  Step.bind (runChecked Call.runSudoInstallAwsCli env.installerOk
      "sudo ./aws/install")
    (fun _ =>
  runChecked Call.runRmAwsCli env.rmOk "rm -rf awscliv2.zip aws")))

/-- `json.dumps(trust_policy)` for the Lambda trust policy literal of
deploy.py lines 113-124 (Python dict insertion order, default
separators). -/
def lambdaTrustPolicy : String :=
  "\x7b\"Version\": \"2012-10-17\", \"Statement\": [\x7b\"Effect\": \"Allow\", \"Principal\": \x7b\"Service\": \"lambda.amazonaws.com\"\x7d, \"Action\": \"sts:AssumeRole\"\x7d]\x7d"

/-- `ensure_iam_role` (deploy.py lines 107-130): probe the role with
`get_role`, create it with the Lambda trust policy only when that raises
`NoSuchEntityException`, and return the locally computed ARN. -/
def ensure_iam_role (env : DeployEnv) (role_name : String)
    (account_id : String) : Step String :=
  let role_arn := "arn:aws:iam::" ++ account_id ++ ":role/" ++ role_name
  Step.bind
    (tryCatchCode "NoSuchEntityException"
      (awsCall (Call.iamGetRole role_name) env.getRole)
      (awsCall
        (Call.iamCreateRole role_name lambdaTrustPolicy
          "Role for Lambda function execution")
        env.createRole))
    (fun _ => Step.pure role_arn)

/-- The Dockerfile text written by `/deploy` (deploy.py lines 161-167,
a triple-quoted f-string with its source indentation). -/
def dockerfileContent : String :=
  "\n        FROM public.ecr.aws/lambda/python:3.8\n        COPY requirements.txt .\n        RUN pip install -r requirements.txt\n        COPY app.py .\n        CMD [\"app.lambda_handler\"]\n        "

end Deploy

namespace Deploy

/-- Body of `POST /deploy` (deploy.py lines 135-250), inside the outer
try. Each source step appears in order; `let`-bound strings mirror the
f-strings of the source. -/
def deployBody (env : DeployEnv) (request : DeployRequest) :
    Step DeployResponse :=
  Step.bind (runCapture Call.runDockerInfo env.dockerInfoExit)
    (fun docker_running =>
  Step.bind
    (if docker_running ≠ 0 then
      raiseHttp 500 "Docker daemon is not running. Please start Docker daemon."
    else Step.pure ())
    (fun _ =>
  Step.bind (runCapture Call.runAwsVersion env.awsVersionExit)
    (fun aws_cli_installed =>
  Step.bind
    (if aws_cli_installed ≠ 0 then install_aws_cli env else Step.pure ())
    (fun _ =>
  Step.bind (runChecked Call.runVenv env.venvOk "python3 -m venv venv")
    (fun _ =>
  Step.bind (writeLocal (Call.writeAppPy request.python_script))
    (fun _ =>
  Step.bind (writeLocal (Call.writeRequirementsTxt request.requirements))
    (fun _ =>
  Step.bind (runChecked Call.runPipInstall env.pipOk
      "venv/bin/pip install -r requirements.txt")
    (fun _ =>
  Step.bind (writeLocal (Call.writeDockerfile dockerfileContent))
    (fun _ =>
  let image_name := request.repository_name ++ ":" ++ request.image_tag
  Step.bind (runCapture (Call.runDockerBuild image_name) env.dockerBuildExit)
    (fun build_returncode =>
  Step.bind
    (if build_returncode ≠ 0 then
      raiseHttp 500 ("Docker build failed: " ++ env.dockerBuildStderr)
    else Step.pure ())
    (fun _ =>
  let region := strOr request.region (getenvRegion env.envRegion)
  Step.bind (awsCall Call.stsGetCallerIdentity env.sts)
    (fun account_id =>
  let ecr_uri := account_id ++ ".dkr.ecr." ++ region ++ ".amazonaws.com"
  Step.bind (runChecked (Call.runEcrGetLoginPassword region)
      env.loginPasswordOk "aws ecr get-login-password --region")
    (fun _ =>
  Step.bind (runCapture (Call.runDockerLogin ecr_uri) env.dockerLoginExit)
    (fun login_returncode =>
  Step.bind
    (if login_returncode ≠ 0 then
      raiseHttp 500 ("Docker login failed: " ++ env.dockerLoginStderr)
    else Step.pure ())
    (fun _ =>
  Step.bind
    (tryCatchCode "RepositoryAlreadyExistsException"
      (awsCall (Call.ecrCreateRepository request.repository_name)
        env.createRepository)
      (Step.pure ()))
    (fun _ =>
  Step.bind (runChecked
      (Call.runDockerTag image_name (ecr_uri ++ "/" ++ image_name))
      env.dockerTagOk "docker tag")
    (fun _ =>
  Step.bind (runChecked (Call.runDockerPush (ecr_uri ++ "/" ++ image_name))
      env.dockerPushOk "docker push")
    (fun _ =>
  Step.bind (ensure_iam_role env "lambda-execution-role" account_id)
    (fun role_arn =>
  Step.bind
    (tryCatchCode "ResourceConflictException"
      (awsCall
        (Call.lambdaCreateFunction request.function_name role_arn
          (ecr_uri ++ "/" ++ image_name)
          (some (intOr request.memory_size 128))
          (some (intOr request.storage_size 512))
          (if truthyStr request.vpc_id then
            some (listOrEmpty request.subnet_ids,
                  listOrEmpty request.security_group_ids)
          else none))
        (env.createFunction request.function_name))
      (Step.bind
        (awsCall
          (Call.lambdaUpdateFunctionCode request.function_name
            (ecr_uri ++ "/" ++ image_name))
          (env.updateFunctionCode request.function_name))
        (fun response =>
         Step.bind
           (if truthyStr request.vpc_id then
             awsCall
               (Call.lambdaUpdateFunctionConfiguration request.function_name
                 (some (intOr request.memory_size 128))
                 (some (intOr request.storage_size 512))
                 (some (listOrEmpty request.subnet_ids,
                        listOrEmpty request.security_group_ids)))
               (env.updateFunctionConfiguration request.function_name)
           else Step.pure ())
           (fun _ => Step.pure response))))
    (fun response =>
  Step.pure
    { message := "Deployment successful",
      image_uri := ecr_uri ++ "/" ++ image_name,
      lambda_arn := response }))))))))))))))))))))

/-- `POST /deploy` (deploy.py lines 133-254): the body above wrapped in
handlers that map every exception to HTTP 500 with `str(e)` as detail. -/
def deploy (env : DeployEnv) (request : DeployRequest) :
    EndpointResult DeployResponse × List Call :=
  catchAll (deployBody env request)

/-- Access to `config.memory_size` in deploy.py line 417/445:
`FunctionConfig` (lines 45-54) declares no such field, so the attribute
lookup raises `AttributeError` before the SDK call is made. -/
def configMemorySize (_ : FunctionConfig) : Step Int :=
  Step.raise
    (PyExc.attributeError "FunctionConfig object has no attribute memory_size")

/-- Access to `config.storage_size` in deploy.py line 418/446: likewise
not a declared field of `FunctionConfig`. -/
def configStorageSize (_ : FunctionConfig) : Step Int :=
  Step.raise
    (PyExc.attributeError "FunctionConfig object has no attribute storage_size")

/-- One iteration of the `/deploy-multiple-functions` loop (deploy.py
lines 406-451) for index `i`. -/
def deployFunctionIter (env : DeployEnv) (config : FunctionConfig)
    (role_arn ecr_uri : String) (i : Nat) : Step Unit :=
  let function_name := config.function_name_pfx ++ "-" ++ toString i
  let image_name := config.repository_name ++ ":" ++ config.image_tag
  tryCatchCode "ResourceConflictException"
    (Step.bind (configMemorySize config)
      (fun memory_size =>
     Step.bind (configStorageSize config)
      (fun storage_size =>
     Step.bind
       (awsCall
         (Call.lambdaCreateFunction function_name role_arn
           (ecr_uri ++ "/" ++ image_name) (some memory_size)
           (some storage_size)
           (some (config.subnet_ids, config.security_group_ids)))
         (env.createFunction function_name))
       (fun _ =>
     let log_group_name := "/aws/lambda/" ++ function_name
     Step.bind
       (tryCatchCode "ResourceAlreadyExistsException"
         (awsCall (Call.logsCreateLogGroup log_group_name)
           (env.createLogGroup log_group_name))
         (Step.pure ()))
       (fun _ =>
     awsCall
       (Call.logsPutRetentionPolicy log_group_name config.log_retention_days)
       (env.putRetentionPolicy log_group_name))))))
    (Step.bind
      (awsCall
        (Call.lambdaUpdateFunctionCode function_name
          (ecr_uri ++ "/" ++ image_name))
        (env.updateFunctionCode function_name))
      (fun _ =>
     Step.bind (configMemorySize config)
      (fun memory_size =>
     Step.bind (configStorageSize config)
      (fun storage_size =>
     Step.bind
       (awsCall
         (Call.lambdaUpdateFunctionConfiguration function_name
           (some memory_size) (some storage_size)
           (some (config.subnet_ids, config.security_group_ids)))
         (env.updateFunctionConfiguration function_name))
       (fun _ => Step.pure ())))))

/-- `for i in range(number_of_functions)`, counting `fuel` iterations
starting at index `i`. -/
def deployFunctionLoop (env : DeployEnv) (config : FunctionConfig)
    (role_arn ecr_uri : String) : Nat → Nat → Step Unit
  | _, 0 => Step.pure ()
  | i, Nat.succ k =>
    Step.bind (deployFunctionIter env config role_arn ecr_uri i)
      (fun _ => deployFunctionLoop env config role_arn ecr_uri (i + 1) k)

/-- Body of `POST /deploy-multiple-functions` (deploy.py lines 374-453),
inside the outer try. -/
def deployMultipleBody (env : DeployEnv) (config : FunctionConfig) :
    Step String :=
  Step.bind (awsCall Call.stsGetCallerIdentity env.sts)
    (fun account_id =>
  let region := strOr config.region (getenvRegion env.envRegion)
  Step.bind (ensure_iam_role env "lambda-execution-role" account_id)
    (fun role_arn =>
  let ecr_uri := account_id ++ ".dkr.ecr." ++ region ++ ".amazonaws.com"
  Step.bind (runChecked (Call.runEcrGetLoginPassword region)
      env.loginPasswordOk "aws ecr get-login-password --region")
    (fun _ =>
  Step.bind (runCapture (Call.runDockerLogin ecr_uri) env.dockerLoginExit)
    (fun _ =>
  Step.bind
    (tryCatchCode "RepositoryAlreadyExistsException"
      (awsCall (Call.ecrCreateRepository config.repository_name)
        env.createRepository)
      (Step.pure ()))
    (fun _ =>
  Step.bind
    (deployFunctionLoop env config role_arn ecr_uri 0
      config.number_of_functions.toNat)
    (fun _ =>
  Step.pure
    ("Deployed " ++ toString config.number_of_functions
      ++ " functions successfully")))))))

/-- `POST /deploy-multiple-functions` (deploy.py lines 372-455): the body
wrapped in `except ClientError` only. -/
def deploy_multiple_functions (env : DeployEnv) (config : FunctionConfig) :
    EndpointResult String × List Call :=
  catchClientError (deployMultipleBody env config)

/-- Response of the set/edit VPC endpoints: the message plus the echoed
input. -/
structure VpcResponse where
  message : String
  vpc_config : VpcConfig
deriving Repr, DecidableEq

/-- `POST /set-vpc-config` (deploy.py lines 625-632): returns the input
unchanged; nothing is stored. -/
def set_vpc_config (vpc_config : VpcConfig) : VpcResponse :=
  { message := "VPC configuration set successfully", vpc_config := vpc_config }

/-- `PUT /edit-vpc-config` (deploy.py lines 634-641): returns the input
unchanged; nothing is stored. -/
def edit_vpc_config (vpc_config : VpcConfig) : VpcResponse :=
  { message := "VPC configuration updated successfully",
    vpc_config := vpc_config }

/-- The mock configuration literal of deploy.py lines 648-652. -/
def mock_vpc_config : VpcConfig :=
  { vpc_id := "vpc-12345678",
    subnet_ids := ["subnet-12345678", "subnet-87654321"],
    security_group_ids := ["sg-12345678", "sg-87654321"] }

/-- One invocation of a VPC-configuration endpoint. -/
inductive VpcCall where
  | set (c : VpcConfig)
  | edit (c : VpcConfig)
  | get
deriving Repr, DecidableEq

/-- The per-process state the three VPC endpoints can read or write:
deploy.py declares no module-level storage for VPC configuration, so it
is empty. -/
abbrev VpcServerState := Unit

/-- State effect of one VPC endpoint invocation (none exists). -/
def vpcStep (_ : VpcCall) (s : VpcServerState) : VpcServerState := s

/-- State after a sequence of VPC endpoint invocations. -/
def vpcRun (calls : List VpcCall) (s : VpcServerState) : VpcServerState :=
  calls.foldl (fun st c => vpcStep c st) s

/-- `GET /get-vpc-config` (deploy.py lines 643-655), as a function of the
server state it could consult: it returns the mock literal regardless. -/
def get_vpc_config (_ : VpcServerState) : VpcConfig := mock_vpc_config

end Deploy

namespace Script

open Deploy (DeployEnv Step Call PyExc AwsOutcome EndpointResult
  runCapture runChecked writeLocal awsCall raiseHttp tryCatchCode catchAll
  truthyStr listOrEmpty lambdaTrustPolicy dockerfileContent DeployResponse)

/-- The pydantic `DeployRequest` of `src/deployment/deploy_script.py`
lines 12-20: no `memory_size`, `storage_size` or `region` field. -/
structure DeployRequest where
  repository_name : String
  image_tag : String
  python_script : String
  requirements : String
  function_name : String
  vpc_id : Option String := none
  subnet_ids : Option (List String) := none
  security_group_ids : Option (List String) := none
deriving Repr, DecidableEq

/-- `install_aws_cli` (deploy_script.py lines 37-41), a textual duplicate
of the one in deploy.py. -/
def install_aws_cli (env : DeployEnv) : Step Unit :=
  Step.bind (runChecked Call.runCurlAwsCli env.curlOk
      "curl https://awscli.amazonaws.com/awscli-exe-linux-x86_64.zip -o awscliv2.zip")
    (fun _ =>
  Step.bind (runChecked Call.runUnzipAwsCli env.unzipOk "unzip awscliv2.zip")
    (fun _ =>
  Step.bind (runChecked Call.runSudoInstallAwsCli env.installerOk
      "sudo ./aws/install")
    (fun _ =>
  runChecked Call.runRmAwsCli env.rmOk "rm -rf awscliv2.zip aws")))

/-- `ensure_iam_role` (deploy_script.py lines 43-66), a textual duplicate
of the one in deploy.py. -/
def ensure_iam_role (env : DeployEnv) (role_name : String)
    (account_id : String) : Step String :=
  let role_arn := "arn:aws:iam::" ++ account_id ++ ":role/" ++ role_name
  Step.bind
    (tryCatchCode "NoSuchEntityException"
      (awsCall (Call.iamGetRole role_name) env.getRole)
      (awsCall
        (Call.iamCreateRole role_name lambdaTrustPolicy
          "Role for Lambda function execution")
        env.createRole))
    (fun _ => Step.pure role_arn)

/-- Body of `POST /deploy` of deploy_script.py (lines 70-177): identical
to the deploy.py body except that the region is the hardcoded
`"us-west-2"` (line 114) and `create_function` /
`update_function_configuration` carry no `MemorySize` or
`EphemeralStorage` argument (lines 149-175). -/
def deployBody (env : DeployEnv) (request : DeployRequest) :
    Step DeployResponse :=
  Step.bind (runCapture Call.runDockerInfo env.dockerInfoExit)
    (fun docker_running =>
  Step.bind
    (if docker_running ≠ 0 then
      raiseHttp 500 "Docker daemon is not running. Please start Docker daemon."
    else Step.pure ())
    (fun _ =>
  Step.bind (runCapture Call.runAwsVersion env.awsVersionExit)
    (fun aws_cli_installed =>
  Step.bind
    (if aws_cli_installed ≠ 0 then install_aws_cli env else Step.pure ())
    (fun _ =>
  Step.bind (runChecked Call.runVenv env.venvOk "python3 -m venv venv")
    (fun _ =>
  Step.bind (writeLocal (Call.writeAppPy request.python_script))
    (fun _ =>
  Step.bind (writeLocal (Call.writeRequirementsTxt request.requirements))
    (fun _ =>
  Step.bind (runChecked Call.runPipInstall env.pipOk
      "venv/bin/pip install -r requirements.txt")
    (fun _ =>
  Step.bind (writeLocal (Call.writeDockerfile dockerfileContent))
    (fun _ =>
  let image_name := request.repository_name ++ ":" ++ request.image_tag
  Step.bind (runCapture (Call.runDockerBuild image_name) env.dockerBuildExit)
    (fun build_returncode =>
  Step.bind
    (if build_returncode ≠ 0 then
      raiseHttp 500 ("Docker build failed: " ++ env.dockerBuildStderr)
    else Step.pure ())
    (fun _ =>
  let region := "us-west-2"
  Step.bind (awsCall Call.stsGetCallerIdentity env.sts)
    (fun account_id =>
  let ecr_uri := account_id ++ ".dkr.ecr." ++ region ++ ".amazonaws.com"
  Step.bind (runChecked (Call.runEcrGetLoginPassword region)
      env.loginPasswordOk "aws ecr get-login-password --region")
    (fun _ =>
  Step.bind (runCapture (Call.runDockerLogin ecr_uri) env.dockerLoginExit)
    (fun login_returncode =>
  Step.bind
    (if login_returncode ≠ 0 then
      raiseHttp 500 ("Docker login failed: " ++ env.dockerLoginStderr)
    else Step.pure ())
    (fun _ =>
  Step.bind
    (tryCatchCode "RepositoryAlreadyExistsException"
      (awsCall (Call.ecrCreateRepository request.repository_name)
        env.createRepository)
      (Step.pure ()))
    (fun _ =>
  Step.bind (runChecked
      (Call.runDockerTag image_name (ecr_uri ++ "/" ++ image_name))
      env.dockerTagOk "docker tag")
    (fun _ =>
  Step.bind (runChecked (Call.runDockerPush (ecr_uri ++ "/" ++ image_name))
      env.dockerPushOk "docker push")
    (fun _ =>
  Step.bind (ensure_iam_role env "lambda-execution-role" account_id)
    (fun role_arn =>
  Step.bind
    (tryCatchCode "ResourceConflictException"
      (awsCall
        (Call.lambdaCreateFunction request.function_name role_arn
          (ecr_uri ++ "/" ++ image_name) none none
          (if truthyStr request.vpc_id then
            some (listOrEmpty request.subnet_ids,
                  listOrEmpty request.security_group_ids)
          else none))
        (env.createFunction request.function_name))
      (Step.bind
        (awsCall
          (Call.lambdaUpdateFunctionCode request.function_name
            (ecr_uri ++ "/" ++ image_name))
          (env.updateFunctionCode request.function_name))
        (fun response =>
         Step.bind
           (if truthyStr request.vpc_id then
             awsCall
               (Call.lambdaUpdateFunctionConfiguration request.function_name
                 none none
                 (some (listOrEmpty request.subnet_ids,
                        listOrEmpty request.security_group_ids)))
               (env.updateFunctionConfiguration request.function_name)
           else Step.pure ())
           (fun _ => Step.pure response))))
    (fun response =>
  Step.pure
    { message := "Deployment successful",
      image_uri := ecr_uri ++ "/" ++ image_name,
      lambda_arn := response }))))))))))))))))))))

/-- `POST /deploy` of deploy_script.py (lines 68-181). -/
def deploy (env : DeployEnv) (request : DeployRequest) :
    EndpointResult DeployResponse × List Call :=
  catchAll (deployBody env request)

end Script

namespace Hr

theorem mapGet?_mapSet_self (m : EmployeeMap) (k : String) (v : Employee) :
    mapGet? (mapSet m k v) k = some v := by
  induction m with
  | nil => simp [mapSet, mapGet?]
  | cons p rest ih =>
    obtain ⟨k', v'⟩ := p
    by_cases h : k' = k
    · simp [mapSet, mapGet?, h]
    · simp [mapSet, mapGet?, h, ih]

theorem mapGet?_mapSet_ne (m : EmployeeMap) (k k' : String) (v : Employee)
    (h : k' ≠ k) : mapGet? (mapSet m k v) k' = mapGet? m k' := by
  induction m with
  | nil => simp [mapSet, mapGet?, Ne.symm h]
  | cons p rest ih =>
    obtain ⟨k₀, v₀⟩ := p
    by_cases h₀ : k₀ = k
    · subst h₀
      simp [mapSet, mapGet?, Ne.symm h]
    · simp [mapSet, mapGet?, h₀, ih]

theorem mapContains_iff_get (m : EmployeeMap) (k : String) :
    mapContains m k = true ↔ ∃ v, mapGet? m k = some v := by
  induction m with
  | nil => simp [mapContains, mapGet?]
  | cons p rest ih =>
    obtain ⟨k', v'⟩ := p
    by_cases h : k' = k
    · simp [mapContains, mapGet?, h]
    · simp [mapContains, mapGet?, h, ih]

theorem view_employee_state (emp_id : String) (m : EmployeeMap) :
    (view_employee emp_id m).2 = m := by
  unfold view_employee
  cases mapGet? m emp_id <;> rfl

end Hr

/-- C7: the HR service state is the single in-memory employee map, seeded
with exactly the records "101" (Alice Johnson) and "102" (Bob Smith);
view and payroll leave it unchanged, every endpoint's state effect is a
function of this map alone (`applyOp`), and a process restart discards
every update, reverting to the seeded map. -/
theorem hr_state_in_memory_seeded :
    (Hr.initialEmployees =
      [("101", { name := "Alice Johnson", position := "Manager",
                 salary := 60000, performance := "Excellent" }),
       ("102", { name := "Bob Smith", position := "Developer",
                 salary := 50000, performance := "Good" })]) ∧
    (∀ emp_id m, (Hr.view_employee emp_id m).2 = m) ∧
    (∀ m, (Hr.calculate_payroll m).2 = m) ∧
    (∀ ops m, Hr.processRestart (Hr.runOps ops m) = Hr.initialEmployees) := by
  refine ⟨rfl, Hr.view_employee_state, fun m => rfl, fun ops m => rfl⟩

/-- C8: adding under an existing id yields HTTP 400 "Employee ID already
exists" with the map untouched; adding under a fresh id returns the
success message, binds exactly the given record to that id and leaves
every other id's binding unchanged. -/
theorem hr_add_employee_spec (m : Hr.EmployeeMap) (emp_id : String)
    (e : Hr.Employee) :
    (Hr.mapContains m emp_id = true →
      Hr.add_employee emp_id e m =
        (Hr.HrResult.httpError 400 "Employee ID already exists", m)) ∧
    (Hr.mapContains m emp_id = false →
      (Hr.add_employee emp_id e m).1 =
        Hr.HrResult.ok ("Employee " ++ e.name ++ " added successfully!") ∧
      Hr.mapGet? (Hr.add_employee emp_id e m).2 emp_id = some e ∧
      ∀ k, k ≠ emp_id →
        Hr.mapGet? (Hr.add_employee emp_id e m).2 k = Hr.mapGet? m k) := by
  constructor
  · intro h
    simp [Hr.add_employee, h]
  · intro h
    refine ⟨by simp [Hr.add_employee, h], by
      simp [Hr.add_employee, h, Hr.mapGet?_mapSet_self], ?_⟩
    intro k hk
    simp [Hr.add_employee, h, Hr.mapGet?_mapSet_ne m emp_id k e hk]

/-- Witness for C8: adding id "103" to the seeded map succeeds and leaves
the binding of "101" unchanged. -/
theorem hr_add_employee_spec_witness :
    Hr.mapContains Hr.initialEmployees "103" = false ∧
    Hr.mapGet?
      (Hr.add_employee "103"
        { name := "Cara Lee", position := "Analyst", salary := 40000,
          performance := "Good" } Hr.initialEmployees).2 "101" =
      Hr.mapGet? Hr.initialEmployees "101" :=
  ⟨by decide,
   (hr_add_employee_spec Hr.initialEmployees "103"
      { name := "Cara Lee", position := "Analyst", salary := 40000,
        performance := "Good" }).2 (by decide) |>.2.2 "101" (by decide)⟩

/-- C9: updating performance of a present id rewrites only that record's
performance field (name, position, salary and all other records are
preserved); for an absent id it is HTTP 404 with the map unchanged. -/
theorem hr_update_performance_frame (m : Hr.EmployeeMap) (emp_id : String)
    (p : String) :
    (∀ e, Hr.mapGet? m emp_id = some e →
      (Hr.update_performance emp_id p m).1 =
        Hr.HrResult.ok ("Performance for Employee ID " ++ emp_id
          ++ " updated to " ++ p) ∧
      Hr.mapGet? (Hr.update_performance emp_id p m).2 emp_id =
        some { name := e.name, position := e.position, salary := e.salary,
               performance := p } ∧
      ∀ k, k ≠ emp_id →
        Hr.mapGet? (Hr.update_performance emp_id p m).2 k =
          Hr.mapGet? m k) ∧
    (Hr.mapContains m emp_id = false →
      Hr.update_performance emp_id p m =
        (Hr.HrResult.httpError 404 "Employee not found", m)) := by
  constructor
  · intro e he
    have hc : Hr.mapContains m emp_id = true :=
      (Hr.mapContains_iff_get m emp_id).2 ⟨e, he⟩
    refine ⟨by simp [Hr.update_performance, hc], ?_, ?_⟩
    · simp only [Hr.update_performance, hc, if_true, he]
      simpa using Hr.mapGet?_mapSet_self m emp_id _
    · intro k hk
      simp only [Hr.update_performance, hc, if_true, he]
      simpa using Hr.mapGet?_mapSet_ne m emp_id k _ hk
  · intro h
    simp [Hr.update_performance, h]

/-- Witness for C9: updating "101" in the seeded map keeps its name and
the record of "102". -/
theorem hr_update_performance_frame_witness :
    Hr.mapGet? Hr.initialEmployees "101" =
      some { name := "Alice Johnson", position := "Manager",
             salary := 60000, performance := "Excellent" } ∧
    Hr.mapGet? (Hr.update_performance "101" "Average"
        Hr.initialEmployees).2 "101" =
      some { name := "Alice Johnson", position := "Manager",
             salary := 60000, performance := "Average" } ∧
    Hr.mapGet? (Hr.update_performance "101" "Average"
        Hr.initialEmployees).2 "102" =
      Hr.mapGet? Hr.initialEmployees "102" :=
  ⟨by decide,
   ((hr_update_performance_frame Hr.initialEmployees "101" "Average").1
      { name := "Alice Johnson", position := "Manager", salary := 60000,
        performance := "Excellent" } (by decide)).2.1,
   ((hr_update_performance_frame Hr.initialEmployees "101" "Average").1
      { name := "Alice Johnson", position := "Manager", salary := 60000,
        performance := "Excellent" } (by decide)).2.2 "102" (by decide)⟩

/-- C10: after a successful add of a fresh id, viewing that id returns
exactly the added record, and view never modifies the map. -/
theorem hr_add_view_roundtrip (m : Hr.EmployeeMap) (emp_id : String)
    (e : Hr.Employee) (h : Hr.mapContains m emp_id = false) :
    Hr.view_employee emp_id (Hr.add_employee emp_id e m).2 =
      (Hr.HrResult.ok e, (Hr.add_employee emp_id e m).2) ∧
    (∀ emp_id₂ m₂, (Hr.view_employee emp_id₂ m₂).2 = m₂) := by
  refine ⟨?_, Hr.view_employee_state⟩
  have hget : Hr.mapGet? (Hr.add_employee emp_id e m).2 emp_id = some e := by
    simp [Hr.add_employee, h, Hr.mapGet?_mapSet_self]
  simp [Hr.view_employee, hget]

/-- Witness for C10: add "104" to the seeded map, then view it. -/
theorem hr_add_view_roundtrip_witness :
    Hr.mapContains Hr.initialEmployees "104" = false ∧
    Hr.view_employee "104"
      (Hr.add_employee "104"
        { name := "Dan Wu", position := "Designer", salary := 45000,
          performance := "Excellent" } Hr.initialEmployees).2 =
      (Hr.HrResult.ok
        { name := "Dan Wu", position := "Designer", salary := 45000,
          performance := "Excellent" },
       (Hr.add_employee "104"
        { name := "Dan Wu", position := "Designer", salary := 45000,
          performance := "Excellent" } Hr.initialEmployees).2) :=
  ⟨by decide,
   (hr_add_view_roundtrip Hr.initialEmployees "104"
      { name := "Dan Wu", position := "Designer", salary := 45000,
        performance := "Excellent" } (by decide)).1⟩

/-- C5: the VPC-configuration endpoints keep no durable state: after any
sequence of set/edit calls, `/get-vpc-config` still returns the fixed
mock configuration (vpc-12345678 with its two subnets and two security
groups), and set/edit merely echo their input back. -/
theorem vpc_endpoints_stateless :
    (∀ calls s,
      Deploy.get_vpc_config (Deploy.vpcRun calls s) =
        { vpc_id := "vpc-12345678",
          subnet_ids := ["subnet-12345678", "subnet-87654321"],
          security_group_ids := ["sg-12345678", "sg-87654321"] }) ∧
    (∀ c, Deploy.set_vpc_config c =
      { message := "VPC configuration set successfully", vpc_config := c }) ∧
    (∀ c, Deploy.edit_vpc_config c =
      { message := "VPC configuration updated successfully",
        vpc_config := c }) ∧
    (∀ calls s, Deploy.vpcRun calls s = s) :=
  ⟨fun _ _ => rfl, fun _ => rfl, fun _ => rfl, fun calls => by
    induction calls with
    | nil => intro s; rfl
    | cons c rest ih => intro s; exact ih (Deploy.vpcStep c s)⟩

namespace Deploy

/-- Every external command and SDK call that `/deploy` can reach succeeds
(the AWS CLI is present, so `install_aws_cli` is not taken; the ECR
repository and IAM role do not need creating). -/
def SuccessEnv (env : DeployEnv) (account : String) : Prop :=
  env.dockerInfoExit = 0 ∧ env.awsVersionExit = 0 ∧ env.venvOk = true ∧
  env.pipOk = true ∧ env.dockerBuildExit = 0 ∧
  env.sts = AwsOutcome.ok account ∧ env.loginPasswordOk = true ∧
  env.dockerLoginExit = 0 ∧ env.createRepository = AwsOutcome.ok () ∧
  env.dockerTagOk = true ∧ env.dockerPushOk = true ∧
  env.getRole = AwsOutcome.ok ()

theorem intOr_128 : intOr (some 128) 128 = 128 := by decide

theorem intOr_512 : intOr (some 512) 512 = 512 := by decide

/-- A concrete all-success environment, for witnesses. -/
def envOk : DeployEnv :=
  { dockerInfoExit := 0, awsVersionExit := 0, curlOk := true,
    unzipOk := true, installerOk := true, rmOk := true, venvOk := true,
    pipOk := true, dockerBuildExit := 0, dockerBuildStderr := "",
    envRegion := none, sts := AwsOutcome.ok "123456789012",
    loginPasswordOk := true, dockerLoginExit := 0, dockerLoginStderr := "",
    createRepository := AwsOutcome.ok (), dockerTagOk := true,
    dockerPushOk := true, getRole := AwsOutcome.ok (),
    createRole := AwsOutcome.ok (),
    createFunction := fun _ => AwsOutcome.ok "arn-create",
    updateFunctionCode := fun _ => AwsOutcome.ok "arn-update",
    updateFunctionConfiguration := fun _ => AwsOutcome.ok (),
    createLogGroup := fun _ => AwsOutcome.ok (),
    putRetentionPolicy := fun _ => AwsOutcome.ok () }

/-- A concrete request with the pydantic defaults, for witnesses. -/
def reqOk : DeployRequest :=
  { repository_name := "repo", image_tag := "latest",
    python_script := "def lambda_handler: pass",
    requirements := "requests", function_name := "fn" }

end Deploy

/-- C3: when every external command and SDK call succeeds, `/deploy`
performs exactly the linear sequence check Docker, check the AWS CLI,
create the venv, write app.py and requirements.txt, install dependencies,
write the Dockerfile, build `repository_name:image_tag`, resolve the
account and authenticate Docker to ECR, create the ECR repository, tag
and push, probe the IAM role, and create the Lambda function; it returns
"Deployment successful" with the pushed image URI and the function ARN,
and with `memory_size`/`storage_size` at their omitted-field defaults the
function is created with MemorySize 128 and EphemeralStorage Size 512. -/
theorem deploy_success_sequence (env : Deploy.DeployEnv)
    (req : Deploy.DeployRequest) (account arn : String)
    (hs : Deploy.SuccessEnv env account)
    (hcf : env.createFunction req.function_name = Deploy.AwsOutcome.ok arn)
    (hm : req.memory_size = some 128) (hst : req.storage_size = some 512) :
    Deploy.deploy env req =
      (Deploy.EndpointResult.ok
        { message := "Deployment successful",
          image_uri := account ++ ".dkr.ecr."
              ++ Deploy.strOr req.region (Deploy.getenvRegion env.envRegion)
              ++ ".amazonaws.com" ++ "/"
              ++ (req.repository_name ++ ":" ++ req.image_tag),
          lambda_arn := arn },
       [Deploy.Call.runDockerInfo, Deploy.Call.runAwsVersion,
        Deploy.Call.runVenv, Deploy.Call.writeAppPy req.python_script,
        Deploy.Call.writeRequirementsTxt req.requirements,
        Deploy.Call.runPipInstall,
        Deploy.Call.writeDockerfile Deploy.dockerfileContent,
        Deploy.Call.runDockerBuild
          (req.repository_name ++ ":" ++ req.image_tag),
        Deploy.Call.stsGetCallerIdentity,
        Deploy.Call.runEcrGetLoginPassword
          (Deploy.strOr req.region (Deploy.getenvRegion env.envRegion)),
        Deploy.Call.runDockerLogin
          (account ++ ".dkr.ecr."
            ++ Deploy.strOr req.region (Deploy.getenvRegion env.envRegion)
            ++ ".amazonaws.com"),
        Deploy.Call.ecrCreateRepository req.repository_name,
        Deploy.Call.runDockerTag
          (req.repository_name ++ ":" ++ req.image_tag)
          (account ++ ".dkr.ecr."
            ++ Deploy.strOr req.region (Deploy.getenvRegion env.envRegion)
            ++ ".amazonaws.com" ++ "/"
            ++ (req.repository_name ++ ":" ++ req.image_tag)),
        Deploy.Call.runDockerPush
          (account ++ ".dkr.ecr."
            ++ Deploy.strOr req.region (Deploy.getenvRegion env.envRegion)
            ++ ".amazonaws.com" ++ "/"
            ++ (req.repository_name ++ ":" ++ req.image_tag)),
        Deploy.Call.iamGetRole "lambda-execution-role",
        Deploy.Call.lambdaCreateFunction req.function_name
          ("arn:aws:iam::" ++ account ++ ":role/" ++ "lambda-execution-role")
          (account ++ ".dkr.ecr."
            ++ Deploy.strOr req.region (Deploy.getenvRegion env.envRegion)
            ++ ".amazonaws.com" ++ "/"
            ++ (req.repository_name ++ ":" ++ req.image_tag))
          (some 128) (some 512)
          (if Deploy.truthyStr req.vpc_id then
            some (Deploy.listOrEmpty req.subnet_ids,
                  Deploy.listOrEmpty req.security_group_ids)
          else none)]) := by
  obtain ⟨h1, h2, h3, h4, h5, h6, h7, h8, h9, h10, h11, h12⟩ := hs
  simp [Deploy.deploy, Deploy.deployBody, Deploy.catchAll,
    Deploy.ensure_iam_role, Deploy.tryCatchCode, Deploy.runCapture,
    Deploy.runChecked, Deploy.writeLocal, Deploy.awsCall, Deploy.Step.pure,
    Deploy.raiseHttp, Deploy.Step.raise, h1, h2, h3, h4, h5, h6, h7, h8,
    h9, h10, h11, h12, hcf, hm, hst, Deploy.intOr_128, Deploy.intOr_512]

/-- Witness for C3 at the concrete all-success environment and the
default-field request. -/
theorem deploy_success_sequence_witness :
    Deploy.SuccessEnv Deploy.envOk "123456789012" ∧
    (Deploy.deploy Deploy.envOk Deploy.reqOk).1 =
      Deploy.EndpointResult.ok
        { message := "Deployment successful",
          image_uri := "123456789012.dkr.ecr.us-west-2.amazonaws.com/repo:latest",
          lambda_arn := "arn-create" } :=
  ⟨⟨rfl, rfl, rfl, rfl, rfl, rfl, rfl, rfl, rfl, rfl, rfl, rfl⟩, by
    have h := deploy_success_sequence Deploy.envOk Deploy.reqOk
      "123456789012" "arn-create"
      ⟨rfl, rfl, rfl, rfl, rfl, rfl, rfl, rfl, rfl, rfl, rfl, rfl⟩ rfl rfl rfl
    rw [h]
    rfl⟩

namespace Deploy

/-- Whether a call is an `update_function_code` SDK call. -/
def Call.isUpdateCode : Call → Bool
  | Call.lambdaUpdateFunctionCode _ _ => true
  | _ => false

/-- Whether a call is an `update_function_configuration` SDK call. -/
def Call.isUpdateConfig : Call → Bool
  | Call.lambdaUpdateFunctionConfiguration _ _ _ _ => true
  | _ => false

/-- A concrete environment in which `create_function` reports the
function already exists. -/
def envConflict : DeployEnv :=
  { envOk with
    createFunction :=
      fun _ => AwsOutcome.clientError "ResourceConflictException"
        "Function already exists" }

end Deploy

/-- C2: `/deploy` is idempotent exactly through its three
single-exception catches: a `RepositoryAlreadyExistsException` from
`create_repository` leaves the whole request outcome identical to a
successful creation; a `ResourceConflictException` from
`create_function` makes the endpoint call `update_function_code` (and
`update_function_configuration` exactly when vpc_id is truthy) and still
return the success message with the update's ARN; and `ensure_iam_role`
returns the locally built role ARN whether or not the role existed,
calling `create_role` with the Lambda trust policy only when `get_role`
raises `NoSuchEntityException`. -/
theorem deploy_provider_idempotency :
    (∀ (env : Deploy.DeployEnv) (req : Deploy.DeployRequest) (msg : String),
      Deploy.deploy
        { env with
          createRepository :=
            Deploy.AwsOutcome.clientError "RepositoryAlreadyExistsException"
              msg } req =
      Deploy.deploy
        { env with createRepository := Deploy.AwsOutcome.ok () } req) ∧
    (∀ (env : Deploy.DeployEnv) (req : Deploy.DeployRequest)
       (account arn msg : String),
      Deploy.SuccessEnv env account →
      env.createFunction req.function_name =
        Deploy.AwsOutcome.clientError "ResourceConflictException" msg →
      env.updateFunctionCode req.function_name = Deploy.AwsOutcome.ok arn →
      (Deploy.truthyStr req.vpc_id = true →
        env.updateFunctionConfiguration req.function_name =
          Deploy.AwsOutcome.ok ()) →
      (Deploy.deploy env req).1 =
        Deploy.EndpointResult.ok
          { message := "Deployment successful",
            image_uri := account ++ ".dkr.ecr."
              ++ Deploy.strOr req.region (Deploy.getenvRegion env.envRegion)
              ++ ".amazonaws.com" ++ "/"
              ++ (req.repository_name ++ ":" ++ req.image_tag),
            lambda_arn := arn } ∧
      ((Deploy.deploy env req).2).any Deploy.Call.isUpdateCode = true ∧
      (((Deploy.deploy env req).2).any Deploy.Call.isUpdateConfig = true ↔
        Deploy.truthyStr req.vpc_id = true)) ∧
    (∀ (env : Deploy.DeployEnv) (role_name account_id : String),
      (env.getRole = Deploy.AwsOutcome.ok () →
        Deploy.ensure_iam_role env role_name account_id =
          ⟨Except.ok ("arn:aws:iam::" ++ account_id ++ ":role/" ++ role_name),
           [Deploy.Call.iamGetRole role_name]⟩) ∧
      (∀ m, env.getRole =
          Deploy.AwsOutcome.clientError "NoSuchEntityException" m →
        env.createRole = Deploy.AwsOutcome.ok () →
        Deploy.ensure_iam_role env role_name account_id =
          ⟨Except.ok ("arn:aws:iam::" ++ account_id ++ ":role/" ++ role_name),
           [Deploy.Call.iamGetRole role_name,
            Deploy.Call.iamCreateRole role_name Deploy.lambdaTrustPolicy
              "Role for Lambda function execution"]⟩)) := by
  refine ⟨fun env req msg => rfl, ?_, ?_⟩
  · intro env req account arn msg hs hcf huc hvc
    obtain ⟨h1, h2, h3, h4, h5, h6, h7, h8, h9, h10, h11, h12⟩ := hs
    by_cases hv : Deploy.truthyStr req.vpc_id = true
    · have hcfg := hvc hv
      simp [Deploy.deploy, Deploy.deployBody, Deploy.catchAll,
        Deploy.ensure_iam_role, Deploy.tryCatchCode, Deploy.runCapture,
        Deploy.runChecked, Deploy.writeLocal, Deploy.awsCall,
        Deploy.Step.pure, Deploy.raiseHttp, Deploy.Step.raise,
        Deploy.Call.isUpdateCode, Deploy.Call.isUpdateConfig,
        h1, h2, h3, h4, h5, h6, h7, h8, h9, h10, h11, h12,
        hcf, huc, hcfg, hv]
    · simp [Deploy.deploy, Deploy.deployBody, Deploy.catchAll,
        Deploy.ensure_iam_role, Deploy.tryCatchCode, Deploy.runCapture,
        Deploy.runChecked, Deploy.writeLocal, Deploy.awsCall,
        Deploy.Step.pure, Deploy.raiseHttp, Deploy.Step.raise,
        Deploy.Call.isUpdateCode, Deploy.Call.isUpdateConfig,
        h1, h2, h3, h4, h5, h6, h7, h8, h9, h10, h11, h12,
        hcf, huc, hv]
  · intro env role_name account_id
    constructor
    · intro h
      simp [Deploy.ensure_iam_role, Deploy.tryCatchCode, Deploy.awsCall,
        Deploy.Step.pure, h]
    · intro m h hcr
      simp [Deploy.ensure_iam_role, Deploy.tryCatchCode, Deploy.awsCall,
        Deploy.Step.pure, h, hcr]

/-- Witness for C2: at a concrete conflicting environment, `/deploy`
falls back to `update_function_code` and still succeeds, and
`ensure_iam_role` returns the ARN without creating the existing role. -/
theorem deploy_provider_idempotency_witness :
    (Deploy.deploy Deploy.envConflict Deploy.reqOk).1 =
      Deploy.EndpointResult.ok
        { message := "Deployment successful",
          image_uri := "123456789012.dkr.ecr.us-west-2.amazonaws.com/repo:latest",
          lambda_arn := "arn-update" } ∧
    Deploy.ensure_iam_role Deploy.envOk "lambda-execution-role"
        "123456789012" =
      ⟨Except.ok "arn:aws:iam::123456789012:role/lambda-execution-role",
       [Deploy.Call.iamGetRole "lambda-execution-role"]⟩ := by
  constructor
  · have h := (deploy_provider_idempotency.2.1 Deploy.envConflict
      Deploy.reqOk "123456789012" "arn-update" "Function already exists"
      ⟨rfl, rfl, rfl, rfl, rfl, rfl, rfl, rfl, rfl, rfl, rfl, rfl⟩
      rfl rfl (fun _ => rfl)).1
    rw [h]
    rfl
  · have h := (deploy_provider_idempotency.2.2 Deploy.envOk
      "lambda-execution-role" "123456789012").1 rfl
    rw [h]
    rfl

namespace Deploy

/-- A concrete environment in which the `aws ecr get-login-password`
subprocess fails. -/
def envLoginFail : DeployEnv := { envOk with loginPasswordOk := false }

/-- A concrete one-function `FunctionConfig`, for counterexamples. -/
def cfgOne : FunctionConfig :=
  { repository_name := "repo", image_tag := "latest",
    function_name_pfx := "fn", number_of_functions := 1,
    vpc_id := "vpc-1", subnet_ids := ["subnet-1"],
    security_group_ids := ["sg-1"] }

end Deploy

/-- Counterexample to C1: `/deploy-multiple-functions` catches only
`ClientError`, so the `CalledProcessError` raised by the `check=True`
ECR login-password subprocess escapes the endpoint unmapped; moreover,
with every external call succeeding, the `AttributeError` from the
nonexistent `FunctionConfig.memory_size` field escapes as well. -/
theorem deploy_multiple_functions_escape_cex :
    (Deploy.deploy_multiple_functions Deploy.envLoginFail Deploy.cfgOne).1 =
      Deploy.EndpointResult.uncaught
        (Deploy.PyExc.calledProcessError
          "aws ecr get-login-password --region") ∧
    (Deploy.deploy_multiple_functions Deploy.envOk Deploy.cfgOne).1 =
      Deploy.EndpointResult.uncaught
        (Deploy.PyExc.attributeError
          "FunctionConfig object has no attribute memory_size") :=
  ⟨rfl, rfl⟩

/-- C1 (amended): every exception an endpoint catches is mapped to HTTP
500 with `str(e)` as detail; `/deploy` catches every exception, so
nothing escapes it, but `/deploy-multiple-functions` catches only
botocore `ClientError`, so exactly the non-`ClientError` exceptions
escape it unmapped. -/
theorem endpoint_exception_mapping_amended (env : Deploy.DeployEnv)
    (req : Deploy.DeployRequest) (cfg : Deploy.FunctionConfig) :
    (∀ e, (Deploy.deploy env req).1 ≠ Deploy.EndpointResult.uncaught e) ∧
    (∀ s d, (Deploy.deploy env req).1 =
        Deploy.EndpointResult.httpError s d → s = 500) ∧
    (∀ s d, (Deploy.deploy_multiple_functions env cfg).1 =
        Deploy.EndpointResult.httpError s d → s = 500) ∧
    (∀ e, (Deploy.deploy_multiple_functions env cfg).1 =
        Deploy.EndpointResult.uncaught e → e.isClientError = false) := by
  refine ⟨?_, ?_, ?_, ?_⟩
  · intro e
    show (Deploy.catchAll (Deploy.deployBody env req)).1 ≠ _
    rcases Deploy.deployBody env req with ⟨r, t⟩
    cases r <;> simp [Deploy.catchAll]
  · intro s d
    show (Deploy.catchAll (Deploy.deployBody env req)).1 = _ → _
    rcases Deploy.deployBody env req with ⟨r, t⟩
    cases r with
    | ok a => simp [Deploy.catchAll]
    | error e =>
      intro h
      injection h with h1 h2
      exact h1.symm
  · intro s d
    show (Deploy.catchClientError (Deploy.deployMultipleBody env cfg)).1 = _ → _
    rcases Deploy.deployMultipleBody env cfg with ⟨r, t⟩
    cases r with
    | ok a => simp [Deploy.catchClientError]
    | error e =>
      cases e with
      | clientError code msg =>
        intro h
        injection h with h1 h2
        exact h1.symm
      | httpException st dt => simp [Deploy.catchClientError]
      | calledProcessError c => simp [Deploy.catchClientError]
      | attributeError m => simp [Deploy.catchClientError]
  · intro e
    show (Deploy.catchClientError (Deploy.deployMultipleBody env cfg)).1 = _ → _
    rcases Deploy.deployMultipleBody env cfg with ⟨r, t⟩
    cases r with
    | ok a => simp [Deploy.catchClientError]
    | error e₀ =>
      cases e₀ with
      | clientError code msg => simp [Deploy.catchClientError]
      | httpException st dt =>
        intro h
        injection h with h1
        rw [← h1]
        rfl
      | calledProcessError c =>
        intro h
        injection h with h1
        rw [← h1]
        rfl
      | attributeError m =>
        intro h
        injection h with h1
        rw [← h1]
        rfl

/-- Witness for C1 (amended): the concrete `AttributeError` that escapes
the all-success run is indeed not a `ClientError`. -/
theorem endpoint_exception_mapping_witness :
    Deploy.PyExc.isClientError
      (Deploy.PyExc.attributeError
        "FunctionConfig object has no attribute memory_size") = false :=
  (endpoint_exception_mapping_amended Deploy.envOk Deploy.reqOk
    Deploy.cfgOne).2.2.2 _ rfl

namespace Deploy

/-- Position of each call site in the `/deploy` control flow (execution
emits calls at strictly increasing positions, which is what makes every
step single-attempt). -/
def tag : Call → Nat
  | Call.runDockerInfo => 0
  | Call.runAwsVersion => 1
  | Call.runCurlAwsCli => 2
  | Call.runUnzipAwsCli => 3
  | Call.runSudoInstallAwsCli => 4
  | Call.runRmAwsCli => 5
  | Call.runVenv => 6
  | Call.writeAppPy _ => 7
  | Call.writeRequirementsTxt _ => 8
  | Call.runPipInstall => 9
  | Call.writeDockerfile _ => 10
  | Call.runDockerBuild _ => 11
  | Call.stsGetCallerIdentity => 12
  | Call.runEcrGetLoginPassword _ => 13
  | Call.runDockerLogin _ => 14
  | Call.ecrCreateRepository _ => 15
  | Call.runDockerTag _ _ => 16
  | Call.runDockerPush _ => 17
  | Call.iamGetRole _ => 18
  | Call.iamCreateRole _ _ _ => 19
  | Call.lambdaCreateFunction _ _ _ _ _ _ => 20
  | Call.lambdaUpdateFunctionCode _ _ => 21
  | Call.lambdaUpdateFunctionConfiguration _ _ _ _ => 22
  | Call.logsCreateLogGroup _ => 23
  | Call.logsPutRetentionPolicy _ _ => 24

/-- The trace of `x` visits strictly increasing positions, all inside
`[lo, hi)`. -/
def StepTags {α : Type} (x : Step α) (lo hi : Nat) : Prop :=
  List.Pairwise (· < ·) (x.trace.map tag) ∧
  ∀ c ∈ x.trace, lo ≤ tag c ∧ tag c < hi

theorem stepTags_nil {α : Type} (lo hi : Nat) {x : Step α}
    (h : x.trace = []) : StepTags x lo hi := by
  constructor <;> simp [h]

theorem stepTags_single (lo hi : Nat) {α : Type} {x : Step α} {c : Call}
    (h : x.trace = [c]) (h1 : lo ≤ tag c) (h2 : tag c < hi) :
    StepTags x lo hi := by
  refine ⟨by simp [h], ?_⟩
  intro d hd
  rw [h, List.mem_singleton] at hd
  subst hd
  exact ⟨h1, h2⟩

theorem stepTags_bind (lo mid hi : Nat) {α β : Type} {x : Step α}
    {f : α → Step β} (hlm : lo ≤ mid) (hmh : mid ≤ hi)
    (hx : StepTags x lo mid) (hf : ∀ a, StepTags (f a) mid hi) :
    StepTags (Step.bind x f) lo hi := by
  rcases x with ⟨r, t⟩
  cases r with
  | error e =>
    exact ⟨hx.1, fun c hc =>
      ⟨(hx.2 c hc).1, lt_of_lt_of_le (hx.2 c hc).2 hmh⟩⟩
  | ok a =>
    refine ⟨?_, ?_⟩
    · rw [show (Step.bind ⟨Except.ok a, t⟩ f).trace = t ++ (f a).trace
        from rfl, List.map_append, List.pairwise_append]
      refine ⟨hx.1, (hf a).1, ?_⟩
      intro p hp q hq
      obtain ⟨c, hc, rfl⟩ := List.mem_map.1 hp
      obtain ⟨d, hd, rfl⟩ := List.mem_map.1 hq
      exact lt_of_lt_of_le (hx.2 c hc).2 ((hf a).2 d hd).1
    · intro c hc
      rcases List.mem_append.1 hc with h | h
      · exact ⟨(hx.2 c h).1, lt_of_lt_of_le (hx.2 c h).2 hmh⟩
      · exact ⟨le_trans hlm ((hf a).2 c h).1, ((hf a).2 c h).2⟩

theorem stepTags_ite (lo hi : Nat) {α : Type} (p : Prop) [Decidable p]
    {A B : Step α} (hA : StepTags A lo hi) (hB : StepTags B lo hi) :
    StepTags (if p then A else B) lo hi := by
  split <;> assumption

theorem stepTags_tryCatch (lo mid hi : Nat) (code : String) {α : Type}
    {x handler : Step α} (hlm : lo ≤ mid) (hmh : mid ≤ hi)
    (hx : StepTags x lo mid) (hh : StepTags handler mid hi) :
    StepTags (tryCatchCode code x handler) lo hi := by
  have hwide : StepTags x lo hi :=
    ⟨hx.1, fun c hc => ⟨(hx.2 c hc).1, lt_of_lt_of_le (hx.2 c hc).2 hmh⟩⟩
  rcases x with ⟨r, t⟩
  cases r with
  | ok a => exact hwide
  | error e =>
    cases e with
    | clientError c m =>
      by_cases hc : c = code
      · rw [show tryCatchCode code ⟨Except.error (PyExc.clientError c m), t⟩
            handler =
            ⟨handler.result, t ++ handler.trace⟩ by
          simp [tryCatchCode, hc]]
        refine ⟨?_, ?_⟩
        · rw [show (Step.mk handler.result (t ++ handler.trace)).trace =
            t ++ handler.trace from rfl, List.map_append,
            List.pairwise_append]
          refine ⟨hx.1, hh.1, ?_⟩
          intro p hp q hq
          obtain ⟨c₁, hc₁, rfl⟩ := List.mem_map.1 hp
          obtain ⟨c₂, hc₂, rfl⟩ := List.mem_map.1 hq
          exact lt_of_lt_of_le (hx.2 c₁ hc₁).2 (hh.2 c₂ hc₂).1
        · intro d hd
          rcases List.mem_append.1 hd with h | h
          · exact ⟨(hx.2 d h).1, lt_of_lt_of_le (hx.2 d h).2 hmh⟩
          · exact ⟨le_trans hlm (hh.2 d h).1, (hh.2 d h).2⟩
      · rw [show tryCatchCode code ⟨Except.error (PyExc.clientError c m), t⟩
            handler = ⟨Except.error (PyExc.clientError c m), t⟩ by
          simp [tryCatchCode, hc]]
        exact hwide
    | httpException st d => exact hwide
    | calledProcessError cmd => exact hwide
    | attributeError m => exact hwide

end Deploy

namespace Deploy

theorem install_aws_cli_tags (env : DeployEnv) :
    StepTags (install_aws_cli env) 2 6 := by
  unfold install_aws_cli
  refine stepTags_bind 2 3 6 (by omega) (by omega)
    (stepTags_single 2 3 rfl (by simp [tag]) (by simp [tag])) (fun _ => ?_)
  refine stepTags_bind 3 4 6 (by omega) (by omega)
    (stepTags_single 3 4 rfl (by simp [tag]) (by simp [tag])) (fun _ => ?_)
  refine stepTags_bind 4 5 6 (by omega) (by omega)
    (stepTags_single 4 5 rfl (by simp [tag]) (by simp [tag])) (fun _ => ?_)
  exact stepTags_single 5 6 rfl (by simp [tag]) (by simp [tag])

theorem ensure_iam_role_tags (env : DeployEnv) (role_name account_id : String) :
    StepTags (ensure_iam_role env role_name account_id) 18 20 := by
  unfold ensure_iam_role
  refine stepTags_bind 18 20 20 (by omega) (by omega) ?_
    (fun _ => stepTags_nil 20 20 rfl)
  exact stepTags_tryCatch 18 19 20 "NoSuchEntityException" (by omega)
    (by omega) (stepTags_single 18 19 rfl (by simp [tag]) (by simp [tag]))
    (stepTags_single 19 20 rfl (by simp [tag]) (by simp [tag]))

theorem deployBody_tags (env : DeployEnv) (req : DeployRequest) :
    StepTags (deployBody env req) 0 25 := by
  unfold deployBody
  refine stepTags_bind 0 1 25 (by omega) (by omega)
    (stepTags_single 0 1 rfl (by simp [tag]) (by simp [tag])) (fun _ => ?_)
  refine stepTags_bind 1 1 25 (by omega) (by omega)
    (stepTags_ite 1 1 _ (stepTags_nil 1 1 rfl) (stepTags_nil 1 1 rfl))
    (fun _ => ?_)
  refine stepTags_bind 1 2 25 (by omega) (by omega)
    (stepTags_single 1 2 rfl (by simp [tag]) (by simp [tag])) (fun _ => ?_)
  refine stepTags_bind 2 6 25 (by omega) (by omega)
    (stepTags_ite 2 6 _ (install_aws_cli_tags env) (stepTags_nil 2 6 rfl))
    (fun _ => ?_)
  refine stepTags_bind 6 7 25 (by omega) (by omega)
    (stepTags_single 6 7 rfl (by simp [tag]) (by simp [tag])) (fun _ => ?_)
  refine stepTags_bind 7 8 25 (by omega) (by omega)
    (stepTags_single 7 8 rfl (by simp [tag]) (by simp [tag])) (fun _ => ?_)
  refine stepTags_bind 8 9 25 (by omega) (by omega)
    (stepTags_single 8 9 rfl (by simp [tag]) (by simp [tag])) (fun _ => ?_)
  refine stepTags_bind 9 10 25 (by omega) (by omega)
    (stepTags_single 9 10 rfl (by simp [tag]) (by simp [tag])) (fun _ => ?_)
  refine stepTags_bind 10 11 25 (by omega) (by omega)
    (stepTags_single 10 11 rfl (by simp [tag]) (by simp [tag])) (fun _ => ?_)
  refine stepTags_bind 11 12 25 (by omega) (by omega)
    (stepTags_single 11 12 rfl (by simp [tag]) (by simp [tag])) (fun _ => ?_)
  refine stepTags_bind 12 12 25 (by omega) (by omega)
    (stepTags_ite 12 12 _ (stepTags_nil 12 12 rfl) (stepTags_nil 12 12 rfl))
    (fun _ => ?_)
  refine stepTags_bind 12 13 25 (by omega) (by omega)
    (stepTags_single 12 13 rfl (by simp [tag]) (by simp [tag])) (fun _ => ?_)
  refine stepTags_bind 13 14 25 (by omega) (by omega)
    (stepTags_single 13 14 rfl (by simp [tag]) (by simp [tag])) (fun _ => ?_)
  refine stepTags_bind 14 15 25 (by omega) (by omega)
    (stepTags_single 14 15 rfl (by simp [tag]) (by simp [tag])) (fun _ => ?_)
  refine stepTags_bind 15 15 25 (by omega) (by omega)
    (stepTags_ite 15 15 _ (stepTags_nil 15 15 rfl) (stepTags_nil 15 15 rfl))
    (fun _ => ?_)
  refine stepTags_bind 15 16 25 (by omega) (by omega)
    (stepTags_tryCatch 15 16 16 "RepositoryAlreadyExistsException"
      (by omega) (by omega)
      (stepTags_single 15 16 rfl (by simp [tag]) (by simp [tag]))
      (stepTags_nil 16 16 rfl))
    (fun _ => ?_)
  refine stepTags_bind 16 17 25 (by omega) (by omega)
    (stepTags_single 16 17 rfl (by simp [tag]) (by simp [tag])) (fun _ => ?_)
  refine stepTags_bind 17 18 25 (by omega) (by omega)
    (stepTags_single 17 18 rfl (by simp [tag]) (by simp [tag])) (fun _ => ?_)
  refine stepTags_bind 18 20 25 (by omega) (by omega)
    (ensure_iam_role_tags env "lambda-execution-role" _) (fun role_arn => ?_)
  refine stepTags_bind 20 23 25 (by omega) (by omega) ?_
    (fun _ => stepTags_nil 23 25 rfl)
  refine stepTags_tryCatch 20 21 23 "ResourceConflictException" (by omega)
    (by omega) (stepTags_single 20 21 rfl (by simp [tag]) (by simp [tag])) ?_
  refine stepTags_bind 21 22 23 (by omega) (by omega)
    (stepTags_single 21 22 rfl (by simp [tag]) (by simp [tag])) (fun _ => ?_)
  refine stepTags_bind 22 23 23 (by omega) (by omega)
    (stepTags_ite 22 23 _
      (stepTags_single 22 23 rfl (by simp [tag]) (by simp [tag]))
      (stepTags_nil 22 23 rfl))
    (fun _ => stepTags_nil 23 23 rfl)

theorem catchAll_trace {α : Type} (x : Step α) : (catchAll x).2 = x.trace := by
  rcases x with ⟨r, t⟩
  cases r <;> rfl

theorem deploy_trace_nodup (env : DeployEnv) (req : DeployRequest) :
    ((deploy env req).2).Nodup := by
  have h := (deployBody_tags env req).1
  have h2 : ((deployBody env req).trace.map tag).Nodup :=
    h.imp (fun hlt => Nat.ne_of_lt hlt)
  rw [show (deploy env req).2 = (deployBody env req).trace from
    catchAll_trace _]
  exact h2.of_map tag

end Deploy

namespace Deploy

theorem mem_trace_bind {α β : Type} {x : Step α} {f : α → Step β} {c : Call} :
    c ∈ (Step.bind x f).trace ↔
      c ∈ x.trace ∨ ∃ a, x.result = Except.ok a ∧ c ∈ (f a).trace := by
  rcases x with ⟨r, t⟩
  cases r <;> simp [Step.bind]

theorem mem_trace_tryCatch {code : String} {α : Type} {x handler : Step α}
    {c : Call} :
    c ∈ (tryCatchCode code x handler).trace ↔
      c ∈ x.trace ∨
      ((∃ m, x.result = Except.error (PyExc.clientError code m)) ∧
        c ∈ handler.trace) := by
  rcases x with ⟨r, t⟩
  cases r with
  | ok a => simp [tryCatchCode]
  | error e =>
    cases e with
    | clientError c0 m =>
      by_cases hc : c0 = code
      · subst hc
        simp [tryCatchCode]
      · simp [tryCatchCode, hc]
    | httpException st d => simp [tryCatchCode]
    | calledProcessError cmd => simp [tryCatchCode]
    | attributeError m => simp [tryCatchCode]

theorem mem_trace_ite {α : Type} (p : Prop) [Decidable p] {A B : Step α}
    {c : Call} :
    c ∈ (if p then A else B).trace ↔
      (p ∧ c ∈ A.trace) ∨ (¬p ∧ c ∈ B.trace) := by
  split <;> simp [*]

theorem result_ite {α : Type} (p : Prop) [Decidable p] {A B : Step α}
    {r : Except PyExc α} :
    (if p then A else B).result = r ↔
      (p ∧ A.result = r) ∨ (¬p ∧ B.result = r) := by
  split <;> simp [*]

theorem awsCall_trace {α : Type} (c : Call) (out : AwsOutcome α) :
    (awsCall c out).trace = [c] := rfl

theorem awsCall_result_ok {α : Type} (c : Call) (out : AwsOutcome α) (a : α) :
    (awsCall c out).result = Except.ok a ↔ out = AwsOutcome.ok a := by
  cases out <;> simp [awsCall]

theorem awsCall_result_clientError {α : Type} (c : Call)
    (out : AwsOutcome α) (code m : String) :
    (awsCall c out).result = Except.error (PyExc.clientError code m) ↔
      out = AwsOutcome.clientError code m := by
  cases out <;> simp [awsCall]

theorem runCapture_trace (c : Call) (e : Int) :
    (runCapture c e).trace = [c] := rfl

theorem runCapture_result (c : Call) (e : Int) :
    (runCapture c e).result = Except.ok e := rfl

theorem runChecked_trace (c : Call) (ok : Bool) (s : String) :
    (runChecked c ok s).trace = [c] := rfl

theorem runChecked_result_ok (c : Call) (ok : Bool) (s : String) (a : Unit) :
    (runChecked c ok s).result = Except.ok a ↔ ok = true := by
  cases ok <;> simp [runChecked]

theorem writeLocal_trace (c : Call) : (writeLocal c).trace = [c] := rfl

theorem writeLocal_result (c : Call) :
    (writeLocal c).result = Except.ok () := rfl

end Deploy

/-- C6: `/deploy` is single-attempt: the trace of external calls of any
request never repeats a call (each subprocess command, file write and SDK
call occurs at most once), the sole fallback `update_function_code`
appears only when `create_function` reported `ResourceConflictException`,
and the endpoint never retries after a failure — a failed request ends in
a response (HTTP error), never an unhandled state in which a step could
rerun. -/
theorem deploy_single_attempt (env : Deploy.DeployEnv)
    (req : Deploy.DeployRequest) :
    ((Deploy.deploy env req).2).Nodup ∧
    (∀ fn uri,
      Deploy.Call.lambdaUpdateFunctionCode fn uri ∈ (Deploy.deploy env req).2 →
      ∃ msg, env.createFunction req.function_name =
        Deploy.AwsOutcome.clientError "ResourceConflictException" msg) ∧
    (∀ e, (Deploy.deploy env req).1 ≠ Deploy.EndpointResult.uncaught e) := by
  refine ⟨Deploy.deploy_trace_nodup env req, ?_, ?_⟩
  · intro fn uri hmem
    unfold Deploy.deploy at hmem
    rw [Deploy.catchAll_trace] at hmem
    unfold Deploy.deployBody Deploy.install_aws_cli Deploy.ensure_iam_role
      at hmem
    simp [Deploy.mem_trace_bind, Deploy.mem_trace_tryCatch,
      Deploy.mem_trace_ite, Deploy.result_ite, Deploy.awsCall_trace,
      Deploy.awsCall_result_ok, Deploy.awsCall_result_clientError,
      Deploy.runCapture_trace, Deploy.runCapture_result,
      Deploy.runChecked_trace, Deploy.runChecked_result_ok,
      Deploy.writeLocal_trace, Deploy.writeLocal_result, Deploy.Step.pure,
      Deploy.Step.raise, Deploy.raiseHttp] at hmem
    obtain ⟨a, ha⟩ := hmem.2.2.2.2.2
    exact ha.2.2.2.2.2.2.2.1
  · intro e
    show (Deploy.catchAll (Deploy.deployBody env req)).1 ≠ _
    rcases Deploy.deployBody env req with ⟨r, t⟩
    cases r <;> simp [Deploy.catchAll]

/-- Witness for C6: at the concrete conflicting environment, the
`update_function_code` call in the trace certifies the conflict. -/
theorem deploy_single_attempt_witness :
    ∃ msg, Deploy.envConflict.createFunction Deploy.reqOk.function_name =
      Deploy.AwsOutcome.clientError "ResourceConflictException" msg :=
  (deploy_single_attempt Deploy.envConflict Deploy.reqOk).2.1 "fn"
    "123456789012.dkr.ecr.us-west-2.amazonaws.com/repo:latest" (by decide)

namespace Deploy

/-- Erase the `MemorySize`/`EphemeralStorage` arguments that deploy.py
passes to `create_function` and `update_function_configuration` and
deploy_script.py does not. -/
def eraseSizeArgs : Call → Call
  | Call.lambdaCreateFunction fn role uri _ _ vpc =>
    Call.lambdaCreateFunction fn role uri none none vpc
  | Call.lambdaUpdateFunctionConfiguration fn _ _ vpc =>
    Call.lambdaUpdateFunctionConfiguration fn none none vpc
  | c => c

/-- `x` and `y` behave identically up to the erased size arguments:
same result, and `x`'s trace maps onto `y`'s under the erasure. -/
def StepRel {α : Type} (x y : Step α) : Prop :=
  x.result = y.result ∧ x.trace.map eraseSizeArgs = y.trace

theorem stepRel_same {α : Type} (x : Step α)
    (h : x.trace.map eraseSizeArgs = x.trace) : StepRel x x := ⟨rfl, h⟩

theorem stepRel_bind {α β : Type} {x y : Step α} {f g : α → Step β}
    (hxy : StepRel x y) (hfg : ∀ a, StepRel (f a) (g a)) :
    StepRel (Step.bind x f) (Step.bind y g) := by
  rcases x with ⟨rx, tx⟩
  rcases y with ⟨ry, ty⟩
  obtain ⟨hr, ht⟩ := hxy
  simp only at hr ht
  subst hr
  cases rx with
  | error e => exact ⟨rfl, ht⟩
  | ok a =>
    refine ⟨(hfg a).1, ?_⟩
    show (tx ++ (f a).trace).map eraseSizeArgs = ty ++ (g a).trace
    rw [List.map_append, ht, (hfg a).2]

theorem stepRel_ite {α : Type} (p : Prop) [Decidable p]
    {A B C D : Step α} (hAC : StepRel A C) (hBD : StepRel B D) :
    StepRel (if p then A else B) (if p then C else D) := by
  split <;> assumption

theorem stepRel_tryCatch (code : String) {α : Type}
    {x y handler handler' : Step α} (hxy : StepRel x y)
    (hh : StepRel handler handler') :
    StepRel (tryCatchCode code x handler)
      (tryCatchCode code y handler') := by
  rcases x with ⟨rx, tx⟩
  rcases y with ⟨ry, ty⟩
  obtain ⟨hr, ht⟩ := hxy
  simp only at hr ht
  subst hr
  cases rx with
  | ok a => exact ⟨rfl, ht⟩
  | error e =>
    cases e with
    | clientError c0 m =>
      by_cases hc : c0 = code
      · subst hc
        refine ⟨?_, ?_⟩
        · show (tryCatchCode c0 ⟨_, tx⟩ handler).result =
            (tryCatchCode c0 ⟨_, ty⟩ handler').result
          simp [tryCatchCode, hh.1]
        · show (tryCatchCode c0 ⟨_, tx⟩ handler).trace.map eraseSizeArgs =
            (tryCatchCode c0 ⟨_, ty⟩ handler').trace
          simp [tryCatchCode, List.map_append, ht, hh.2]
      · refine ⟨?_, ?_⟩
        · simp [tryCatchCode, hc]
        · simp [tryCatchCode, hc, ht]
    | httpException st d => exact ⟨rfl, ht⟩
    | calledProcessError cmd => exact ⟨rfl, ht⟩
    | attributeError m => exact ⟨rfl, ht⟩

theorem catchAll_rel_fst {α : Type} {x y : Step α}
    (h : x.result = y.result) : (catchAll x).1 = (catchAll y).1 := by
  rcases x with ⟨rx, tx⟩
  rcases y with ⟨ry, ty⟩
  simp only at h
  subst h
  cases rx <;> rfl

/-- The region both scripts resolve when the request carries no region
and `AWS_DEFAULT_REGION` is unset. -/
theorem region_default :
    strOr none (getenvRegion none) = "us-west-2" := rfl

end Deploy

/-- The deploy_script.py request carrying the same fields as a deploy.py
request (deploy_script.py has no memory_size/storage_size/region). -/
def toScriptRequest (r : Deploy.DeployRequest) : Script.DeployRequest :=
  { repository_name := r.repository_name, image_tag := r.image_tag,
    python_script := r.python_script, requirements := r.requirements,
    function_name := r.function_name, vpc_id := r.vpc_id,
    subnet_ids := r.subnet_ids, security_group_ids := r.security_group_ids }

theorem install_aws_cli_rel (env : Deploy.DeployEnv) :
    Deploy.StepRel (Deploy.install_aws_cli env) (Script.install_aws_cli env) := by
  unfold Deploy.install_aws_cli Script.install_aws_cli
  refine Deploy.stepRel_bind (Deploy.stepRel_same _ rfl) (fun _ => ?_)
  refine Deploy.stepRel_bind (Deploy.stepRel_same _ rfl) (fun _ => ?_)
  refine Deploy.stepRel_bind (Deploy.stepRel_same _ rfl) (fun _ => ?_)
  exact Deploy.stepRel_same _ rfl

theorem ensure_iam_role_rel (env : Deploy.DeployEnv)
    (role_name account_id : String) :
    Deploy.StepRel (Deploy.ensure_iam_role env role_name account_id)
      (Script.ensure_iam_role env role_name account_id) := by
  unfold Deploy.ensure_iam_role Script.ensure_iam_role
  refine Deploy.stepRel_bind
    (Deploy.stepRel_tryCatch _ (Deploy.stepRel_same _ rfl)
      (Deploy.stepRel_same _ rfl))
    (fun _ => Deploy.stepRel_same _ rfl)

theorem deployBody_rel (env : Deploy.DeployEnv) (req : Deploy.DeployRequest)
    (h1 : req.region = none) (h2 : env.envRegion = none) :
    Deploy.StepRel (Deploy.deployBody env req)
      (Script.deployBody env (toScriptRequest req)) := by
  unfold Deploy.deployBody Script.deployBody
  simp only [h1, h2, Deploy.region_default, toScriptRequest]
  refine Deploy.stepRel_bind (Deploy.stepRel_same _ rfl) (fun _ => ?_)
  refine Deploy.stepRel_bind
    (Deploy.stepRel_ite _ (Deploy.stepRel_same _ rfl)
      (Deploy.stepRel_same _ rfl)) (fun _ => ?_)
  refine Deploy.stepRel_bind (Deploy.stepRel_same _ rfl) (fun _ => ?_)
  refine Deploy.stepRel_bind
    (Deploy.stepRel_ite _ (install_aws_cli_rel env)
      (Deploy.stepRel_same _ rfl)) (fun _ => ?_)
  refine Deploy.stepRel_bind (Deploy.stepRel_same _ rfl) (fun _ => ?_)
  refine Deploy.stepRel_bind (Deploy.stepRel_same _ rfl) (fun _ => ?_)
  refine Deploy.stepRel_bind (Deploy.stepRel_same _ rfl) (fun _ => ?_)
  refine Deploy.stepRel_bind (Deploy.stepRel_same _ rfl) (fun _ => ?_)
  refine Deploy.stepRel_bind (Deploy.stepRel_same _ rfl) (fun _ => ?_)
  refine Deploy.stepRel_bind (Deploy.stepRel_same _ rfl) (fun _ => ?_)
  refine Deploy.stepRel_bind
    (Deploy.stepRel_ite _ (Deploy.stepRel_same _ rfl)
      (Deploy.stepRel_same _ rfl)) (fun _ => ?_)
  refine Deploy.stepRel_bind (Deploy.stepRel_same _ rfl) (fun account_id => ?_)
  refine Deploy.stepRel_bind (Deploy.stepRel_same _ rfl) (fun _ => ?_)
  refine Deploy.stepRel_bind (Deploy.stepRel_same _ rfl) (fun _ => ?_)
  refine Deploy.stepRel_bind
    (Deploy.stepRel_ite _ (Deploy.stepRel_same _ rfl)
      (Deploy.stepRel_same _ rfl)) (fun _ => ?_)
  refine Deploy.stepRel_bind
    (Deploy.stepRel_tryCatch _ (Deploy.stepRel_same _ rfl)
      (Deploy.stepRel_same _ rfl)) (fun _ => ?_)
  refine Deploy.stepRel_bind (Deploy.stepRel_same _ rfl) (fun _ => ?_)
  refine Deploy.stepRel_bind (Deploy.stepRel_same _ rfl) (fun _ => ?_)
  refine Deploy.stepRel_bind (ensure_iam_role_rel env _ _) (fun role_arn => ?_)
  refine Deploy.stepRel_bind
    (Deploy.stepRel_tryCatch _ ⟨rfl, rfl⟩ ?_) (fun _ => Deploy.stepRel_same _ rfl)
  refine Deploy.stepRel_bind (Deploy.stepRel_same _ rfl) (fun response => ?_)
  refine Deploy.stepRel_bind
    (Deploy.stepRel_ite _ ⟨rfl, rfl⟩ (Deploy.stepRel_same _ rfl))
    (fun _ => Deploy.stepRel_same _ rfl)

set_option maxRecDepth 4000 in
/-- Counterexample to C4: even in the common request shape (defaults
only, region resolving to us-west-2) the two `/deploy` endpoints do not
issue the same SDK calls — deploy.py's `create_function` carries
`MemorySize 128` and `EphemeralStorage Size 512`, deploy_script.py's
carries neither, so the call sequences differ at a concrete input. -/
theorem deploy_scripts_trace_cex :
    (Deploy.deploy Deploy.envOk Deploy.reqOk).2 ≠
      (Script.deploy Deploy.envOk (toScriptRequest Deploy.reqOk)).2 := by
  decide

/-- C4 (amended): for every request in the common shape (no
memory_size/storage_size beyond the defaults, region resolving to
us-west-2), the two `/deploy` endpoints return the same response and
issue the same sequence of external commands and SDK calls, except that
deploy.py's `create_function` and `update_function_configuration`
additionally pass the MemorySize and EphemeralStorage arguments (erasing
those two arguments maps one trace onto the other). -/
theorem deploy_scripts_equiv_amended (env : Deploy.DeployEnv)
    (req : Deploy.DeployRequest) (h1 : req.region = none)
    (h2 : env.envRegion = none) (_h3 : req.memory_size = some 128)
    (_h4 : req.storage_size = some 512) :
    (Deploy.deploy env req).1 =
      (Script.deploy env (toScriptRequest req)).1 ∧
    ((Deploy.deploy env req).2).map Deploy.eraseSizeArgs =
      (Script.deploy env (toScriptRequest req)).2 := by
  have h := deployBody_rel env req h1 h2
  refine ⟨Deploy.catchAll_rel_fst h.1, ?_⟩
  show ((Deploy.catchAll (Deploy.deployBody env req)).2).map _ =
    (Deploy.catchAll (Script.deployBody env (toScriptRequest req))).2
  rw [Deploy.catchAll_trace, Deploy.catchAll_trace]
  exact h.2

/-- Witness for C4 (amended) at the concrete all-success environment. -/
theorem deploy_scripts_equiv_witness :
    (Deploy.deploy Deploy.envOk Deploy.reqOk).1 =
      (Script.deploy Deploy.envOk (toScriptRequest Deploy.reqOk)).1 ∧
    ((Deploy.deploy Deploy.envOk Deploy.reqOk).2).map Deploy.eraseSizeArgs =
      (Script.deploy Deploy.envOk (toScriptRequest Deploy.reqOk)).2 :=
  deploy_scripts_equiv_amended Deploy.envOk Deploy.reqOk rfl rfl rfl rfl
